import Mathlib

/-!
Formal model of the Stadium Finder search core (`Stadium-Finder.py`).

The source manipulates a pandas dataframe of sports facilities.  We model a
dataframe as a `List Facility`, one record per row, with the columns the
core logic reads.  The float values stored in the coordinate columns are
modelled as exact rationals (every IEEE double is a rational number); the
distance column produced by `haversine_vectorized` is modelled separately
(see `haversine` below and the generic distance parameter of `rankSelect`).
-/

open List

/-- One dataset row, with the columns read by the search core. -/
structure Facility where
  inst_nom : String
  equip_type_name : String
  equip_nature : String
  equip_sol : String
  aps_name : String
  /-- `inst_trans_type` column; `none` models an empty/NaN cell. -/
  inst_trans_type : Option String
  latitude : ℚ
  longitude : ℚ
deriving DecidableEq, Repr

/-- Reference list `list_trans` (source line 31): the transport criterion domain. -/
def list_trans : List String :=
  ["No preference", "Autre", "Avion", "Bateau", "Bus", "Métro",
   "Pas de desserte", "Train", "Tramway"]

/-- Model of pandas `.astype(str)` on one cell of the `inst_trans_type`
column: a string cell is unchanged, a NaN cell is rendered as `"nan"`. -/
def astypeStr : Option String → String
  | some s => s
  | none => "nan"

/-- Model of a character-level "pattern starts here" test: `pat` is an
initial segment of `hay`. -/
def startsWithChars : List Char → List Char → Bool
  | _, [] => true
  | [], _ :: _ => false
  | c :: cs, p :: ps => c == p && startsWithChars cs ps

/-- Model of pandas `.str.contains(pat)` on one cell, scanning every
position of `hay` for an occurrence of `pat`.  The transport criterion
values (see `list_trans`) contain no regex metacharacter, so on this
domain pandas' regex search coincides with plain substring search. -/
def containsChars : List Char → List Char → Bool
  | [], pat => startsWithChars [] pat
  | c :: cs, pat => startsWithChars (c :: cs) pat || containsChars cs pat

/-- The per-row transport test of source lines 80-82:
`dataset_filtered["inst_trans_type"].astype(str).str.contains(transport, na=False)`. -/
def transportPass (t : String) (d : Option String) : Bool :=
  containsChars (astypeStr d).data t.data

/-- Source lines 77-82: keep rows whose transport descriptor contains the
chosen transport, unless the choice is the sentinel. -/
def transportFilter (t : String) (l : List Facility) : List Facility :=
  if t ≠ "No preference" then l.filter (fun f => transportPass t f.inst_trans_type) else l

/-- Source lines 86-94, first entry of the `filters` dict: strict equality
on `equip_type_name`. -/
def typeFilter (v : String) (l : List Facility) : List Facility :=
  if v ≠ "No preference" then l.filter (fun f => decide (f.equip_type_name = v)) else l

/-- Source lines 86-94, second entry of the `filters` dict: strict equality
on `equip_nature`. -/
def natureFilter (v : String) (l : List Facility) : List Facility :=
  if v ≠ "No preference" then l.filter (fun f => decide (f.equip_nature = v)) else l

/-- Source lines 86-94, third entry of the `filters` dict: strict equality
on `aps_name`. -/
def activityFilter (v : String) (l : List Facility) : List Facility :=
  if v ≠ "No preference" then l.filter (fun f => decide (f.aps_name = v)) else l

/-- Source lines 96-99: `.isin(surface)` membership test on `equip_sol`.
The UI (lines 186-189) passes either the string sentinel `"No preference"`
(when the multiselect is empty) or a non-empty list, and the guard on line
97 applies the mask exactly when the argument is a non-empty list; we model
the surface argument as a `List String`, `[]` standing for the sentinel. -/
def surfaceFilter (su : List String) (l : List Facility) : List Facility :=
  if su ≠ [] then l.filter (fun f => decide (f.equip_sol ∈ su)) else l

/-- Source lines 69-101, `apply_selection_filters`: the five masks applied
in source order (transport, then the `filters` dict in insertion order:
type, nature, activity, then surface). -/
def apply_selection_filters (ds : List Facility) (t ty na : String)
    (su : List String) (ac : String) : List Facility :=
  surfaceFilter su (activityFilter ac (natureFilter na (typeFilter ty (transportFilter t ds))))

/-- Statement-level model of `apply_selection_filters` keeping both local
variables of the source function: the first component is
`dataset_source`, never reassigned, and the second is `dataset_filtered`,
initialised on line 74 by `dataset_source.copy()` and rebound by each mask
(pandas boolean-mask selection returns a fresh frame). -/
def apply_selection_filters_env (ds : List Facility) (t ty na : String)
    (su : List String) (ac : String) : List Facility × List Facility :=
  let e0 : List Facility × List Facility := (ds, ds)
  let e1 := (e0.1, transportFilter t e0.2)
  let e2 := (e1.1, typeFilter ty e1.2)
  let e3 := (e2.1, natureFilter na e2.2)
  let e4 := (e3.1, activityFilter ac e3.2)
  (e4.1, surfaceFilter su e4.2)

theorem transportFilter_sub (t : String) (l : List Facility) : transportFilter t l <+ l := by
  unfold transportFilter
  split_ifs
  · exact List.filter_sublist l
  · exact List.Sublist.refl l

theorem typeFilter_sub (v : String) (l : List Facility) : typeFilter v l <+ l := by
  unfold typeFilter
  split_ifs
  · exact List.filter_sublist l
  · exact List.Sublist.refl l

theorem natureFilter_sub (v : String) (l : List Facility) : natureFilter v l <+ l := by
  unfold natureFilter
  split_ifs
  · exact List.filter_sublist l
  · exact List.Sublist.refl l

theorem activityFilter_sub (v : String) (l : List Facility) : activityFilter v l <+ l := by
  unfold activityFilter
  split_ifs
  · exact List.filter_sublist l
  · exact List.Sublist.refl l

theorem surfaceFilter_sub (su : List String) (l : List Facility) : surfaceFilter su l <+ l := by
  unfold surfaceFilter
  split_ifs
  · exact List.filter_sublist l
  · exact List.Sublist.refl l

/-- C10: the Filter Engine's output is an order-preserving subsequence of
its input: every output facility occurs in the input, none is duplicated
beyond its input occurrences, and relative order is preserved (each
criterion only removes rows). -/
theorem filter_output_sublist (ds : List Facility) (t ty na : String)
    (su : List String) (ac : String) :
    apply_selection_filters ds t ty na su ac <+ ds := by
  unfold apply_selection_filters
  exact (surfaceFilter_sub _ _).trans ((activityFilter_sub _ _).trans
    ((natureFilter_sub _ _).trans ((typeFilter_sub _ _).trans (transportFilter_sub _ _))))

/-- C6: filtering with every criterion left at "No preference" (and no
surface value selected) is the identity on the collection. -/
theorem filter_noPref_identity (ds : List Facility) :
    apply_selection_filters ds "No preference" "No preference" "No preference"
      [] "No preference" = ds := by
  simp [apply_selection_filters, transportFilter, typeFilter, natureFilter,
    activityFilter, surfaceFilter]

/-- C9: the Filter Engine does not mutate its input: in the statement-level
model carrying both local variables, the `dataset_source` component is
returned unchanged, and the `dataset_filtered` component is the (fresh)
filtered collection. -/
theorem filter_no_mutation (ds : List Facility) (t ty na : String)
    (su : List String) (ac : String) :
    (apply_selection_filters_env ds t ty na su ac).1 = ds ∧
    (apply_selection_filters_env ds t ty na su ac).2 =
      apply_selection_filters ds t ty na su ac :=
  ⟨rfl, rfl⟩

theorem startsWithChars_iff (pat : List Char) : ∀ hay : List Char,
    startsWithChars hay pat = true ↔ ∃ rest, hay = pat ++ rest := by
  induction pat with
  | nil =>
    intro hay
    simp [startsWithChars]
  | cons p ps ih =>
    intro hay
    cases hay with
    | nil => simp [startsWithChars]
    | cons c cs =>
      simp only [startsWithChars, Bool.and_eq_true, beq_iff_eq, ih, List.cons_append,
        List.cons.injEq]
      constructor
      · rintro ⟨hc, rest, hrest⟩
        exact ⟨rest, hc, hrest⟩
      · rintro ⟨rest, hc, hrest⟩
        exact ⟨hc, rest, hrest⟩

theorem containsChars_iff (pat : List Char) : ∀ hay : List Char,
    containsChars hay pat = true ↔ ∃ pre post, hay = pre ++ pat ++ post := by
  intro hay
  induction hay with
  | nil =>
    simp only [containsChars, startsWithChars_iff]
    constructor
    · rintro ⟨rest, hrest⟩
      exact ⟨[], rest, by simpa using hrest⟩
    · rintro ⟨pre, post, h⟩
      obtain ⟨h1, h2⟩ := List.append_eq_nil.mp h.symm
      obtain ⟨h3, h4⟩ := List.append_eq_nil.mp h1
      exact ⟨post, by simp [h4, h2]⟩
  | cons c cs ih =>
    simp only [containsChars, Bool.or_eq_true, startsWithChars_iff, ih]
    constructor
    · rintro (⟨rest, hrest⟩ | ⟨pre, post, h⟩)
      · exact ⟨[], rest, by simpa using hrest⟩
      · exact ⟨c :: pre, post, by simp [h]⟩
    · rintro ⟨pre, post, h⟩
      cases pre with
      | nil => exact Or.inl ⟨post, by simpa using h⟩
      | cons d pre =>
        right
        rw [List.cons_append, List.cons_append] at h
        injection h with h1 h2
        exact ⟨pre, post, h2⟩

/-- The transport criterion's per-row constraint, vacuous at the sentinel. -/
def transSlot (t : String) (d : Option String) : Prop :=
  t ≠ "No preference" → transportPass t d = true

/-- An exact-equality criterion's per-row constraint, vacuous at the sentinel. -/
def eqSlot (v field : String) : Prop :=
  v ≠ "No preference" → field = v

/-- The surface criterion's per-row constraint, vacuous when no value is selected. -/
def surSlot (su : List String) (s : String) : Prop :=
  su ≠ [] → s ∈ su

theorem transSlot_noPref (d : Option String) : transSlot "No preference" d :=
  fun h => absurd rfl h

theorem eqSlot_noPref (x : String) : eqSlot "No preference" x :=
  fun h => absurd rfl h

theorem surSlot_noPref (s : String) : surSlot [] s :=
  fun h => absurd rfl h

theorem mem_transportFilter (t : String) (l : List Facility) (f : Facility) :
    f ∈ transportFilter t l ↔ f ∈ l ∧ transSlot t f.inst_trans_type := by
  unfold transportFilter transSlot
  split_ifs with h
  · simp [List.mem_filter, h]
  · simp [h]

theorem mem_typeFilter (v : String) (l : List Facility) (f : Facility) :
    f ∈ typeFilter v l ↔ f ∈ l ∧ eqSlot v f.equip_type_name := by
  unfold typeFilter eqSlot
  split_ifs with h
  · simp [List.mem_filter, h]
  · simp [h]

theorem mem_natureFilter (v : String) (l : List Facility) (f : Facility) :
    f ∈ natureFilter v l ↔ f ∈ l ∧ eqSlot v f.equip_nature := by
  unfold natureFilter eqSlot
  split_ifs with h
  · simp [List.mem_filter, h]
  · simp [h]

theorem mem_activityFilter (v : String) (l : List Facility) (f : Facility) :
    f ∈ activityFilter v l ↔ f ∈ l ∧ eqSlot v f.aps_name := by
  unfold activityFilter eqSlot
  split_ifs with h
  · simp [List.mem_filter, h]
  · simp [h]

theorem mem_surfaceFilter (su : List String) (l : List Facility) (f : Facility) :
    f ∈ surfaceFilter su l ↔ f ∈ l ∧ surSlot su f.equip_sol := by
  unfold surfaceFilter surSlot
  split_ifs with h
  · simp [List.mem_filter, h]
  · simp [h]

theorem mem_apply_iff (ds : List Facility) (t ty na : String) (su : List String)
    (ac : String) (f : Facility) :
    f ∈ apply_selection_filters ds t ty na su ac ↔
      f ∈ ds ∧ transSlot t f.inst_trans_type ∧ eqSlot ty f.equip_type_name ∧
        eqSlot na f.equip_nature ∧ eqSlot ac f.aps_name ∧ surSlot su f.equip_sol := by
  unfold apply_selection_filters
  simp only [mem_surfaceFilter, mem_activityFilter, mem_natureFilter, mem_typeFilter,
    mem_transportFilter]
  tauto

/-- C3: for every transport criterion value other than the sentinel, a
facility passes the transport test iff its descriptor text contains the
value as a substring; a missing/NaN descriptor never passes (it is rendered
as the text `"nan"`, which contains no transport criterion value); and in
particular `"Bus"` matches the descriptor `"Bus, Tramway"` but not `"Métro"`. -/
theorem transport_criterion (t : String) (ht : t ∈ list_trans)
    (hne : t ≠ "No preference") :
    (∀ s : String, transportPass t (some s) = true ↔
      ∃ pre post, s.data = pre ++ t.data ++ post) ∧
    transportPass t none = false ∧
    transportPass "Bus" (some "Bus, Tramway") = true ∧
    transportPass "Bus" (some "Métro") = false := by
  refine ⟨fun s => by simp [transportPass, astypeStr, containsChars_iff], ?_, by decide, by decide⟩
  simp only [list_trans, List.mem_cons, List.not_mem_nil, or_false] at ht
  rcases ht with rfl | rfl | rfl | rfl | rfl | rfl | rfl | rfl | rfl
  · exact absurd rfl hne
  all_goals decide

/-- A concrete facility used to instantiate scenarios from the spec. -/
def facA : Facility :=
  ⟨"Stade Municipal", "Terrain de football", "Découvert", "Gazon synthétique",
   "Football / Football en salle (Futsal)", some "Bus, Tramway", 48, 2⟩

/-- A second concrete facility used to instantiate scenarios from the spec. -/
def facB : Facility :=
  ⟨"Gymnase Sud", "Terrain de futsal extérieur", "Intérieur", "Bitume",
   "Football Américain / Flag", none, 45, 5⟩

theorem transport_criterion_witness :
    transportPass "Bus" (some "Bus, Tramway") = true ∧
    transportPass "Bus" (some "Métro") = false ∧
    transportPass "Bus" none = false :=
  have h := transport_criterion "Bus" (by decide) (by decide)
  ⟨h.2.2.1, h.2.2.2, h.2.1⟩

/-- C5: when the surface criterion holds a non-empty set of values, a
facility passes it iff its surface field equals one of the selected values
(OR within the criterion); in particular a facility whose surface is
"Gazon synthétique" is excluded by the surface criterion `["Bitume"]`. -/
theorem surface_criterion (su : List String) (hsu : su ≠ [])
    (ds : List Facility) (f : Facility) :
    (f ∈ surfaceFilter su ds ↔ f ∈ ds ∧ ∃ v ∈ su, f.equip_sol = v) ∧
    facA.equip_sol = "Gazon synthétique" ∧ facA ∉ surfaceFilter ["Bitume"] [facA] := by
  refine ⟨?_, by decide, by decide⟩
  rw [surfaceFilter, if_pos hsu]
  simp only [List.mem_filter, decide_eq_true_eq]
  constructor
  · rintro ⟨h1, h2⟩
    exact ⟨h1, f.equip_sol, h2, rfl⟩
  · rintro ⟨h1, v, hv, he⟩
    exact ⟨h1, he ▸ hv⟩

theorem surface_criterion_witness :
    (facB ∈ surfaceFilter ["Bitume"] [facA, facB] ↔
      facB ∈ [facA, facB] ∧ ∃ v ∈ ["Bitume"], facB.equip_sol = v) ∧
    facA.equip_sol = "Gazon synthétique" ∧ facA ∉ surfaceFilter ["Bitume"] [facA] :=
  surface_criterion ["Bitume"] (by decide) [facA, facB] facB

/-- One specified filter criterion: which of the five query slots is set,
and to which value. -/
inductive Crit where
  | transport (v : String)
  | etype (v : String)
  | nature (v : String)
  | surface (vs : List String)
  | activity (v : String)
deriving DecidableEq, Repr

/-- The slot a criterion occupies (two criteria of the same kind cannot be
specified simultaneously in one query). -/
def Crit.kind : Crit → ℕ
  | .transport _ => 0
  | .etype _ => 1
  | .nature _ => 2
  | .surface _ => 3
  | .activity _ => 4

/-- Filtering with a single criterion specified and every other slot left
at its sentinel. -/
def applySingle (ds : List Facility) : Crit → List Facility
  | .transport v =>
    apply_selection_filters ds v "No preference" "No preference" [] "No preference"
  | .etype v =>
    apply_selection_filters ds "No preference" v "No preference" [] "No preference"
  | .nature v =>
    apply_selection_filters ds "No preference" "No preference" v [] "No preference"
  | .surface vs =>
    apply_selection_filters ds "No preference" "No preference" "No preference" vs "No preference"
  | .activity v =>
    apply_selection_filters ds "No preference" "No preference" "No preference" [] v

/-- Filtering with two criteria specified simultaneously (each fills its
own slot; every other slot keeps its sentinel). -/
def applyBoth (ds : List Facility) (c1 c2 : Crit) : List Facility :=
  apply_selection_filters ds
    (match c1, c2 with | .transport v, _ => v | _, .transport v => v | _, _ => "No preference")
    (match c1, c2 with | .etype v, _ => v | _, .etype v => v | _, _ => "No preference")
    (match c1, c2 with | .nature v, _ => v | _, .nature v => v | _, _ => "No preference")
    (match c1, c2 with | .surface vs, _ => vs | _, .surface vs => vs | _, _ => [])
    (match c1, c2 with | .activity v, _ => v | _, .activity v => v | _, _ => "No preference")

/-- C7: the Filter Engine is a true intersection: for any two criteria (of
distinct kinds), filtering with both specified simultaneously keeps exactly
the facilities kept by each single-criterion filter independently. -/
theorem filter_intersection (ds : List Facility) (c1 c2 : Crit)
    (h : c1.kind ≠ c2.kind) (f : Facility) :
    f ∈ applyBoth ds c1 c2 ↔ f ∈ applySingle ds c1 ∧ f ∈ applySingle ds c2 := by
  cases c1 <;> cases c2 <;>
    first
    | exact absurd rfl h
    | (simp only [applyBoth, applySingle, mem_apply_iff, transSlot_noPref, eqSlot_noPref,
        surSlot_noPref, true_and, and_true]; tauto)

theorem filter_intersection_witness :
    facA ∈ applyBoth [facA, facB] (Crit.etype "Terrain de football")
        (Crit.surface ["Gazon synthétique"]) ↔
      facA ∈ applySingle [facA, facB] (Crit.etype "Terrain de football") ∧
      facA ∈ applySingle [facA, facB] (Crit.surface ["Gazon synthétique"]) :=
  filter_intersection [facA, facB] (Crit.etype "Terrain de football")
    (Crit.surface ["Gazon synthétique"]) (by decide) facA

/-- The sort key of source line 236 (`.sort_values("distance_km")`):
compare annotated rows by their distance column. -/
def distLE {α : Type} [LinearOrder α] (p q : Facility × α) : Prop :=
  p.2 ≤ q.2

instance {α : Type} [LinearOrder α] : DecidableRel (α := Facility × α) distLE :=
  fun p q => inferInstanceAs (Decidable (p.2 ≤ q.2))

instance {α : Type} [LinearOrder α] : IsTotal (Facility × α) distLE :=
  ⟨fun a b => le_total a.2 b.2⟩

instance {α : Type} [LinearOrder α] : IsTrans (Facility × α) distLE :=
  ⟨fun _ _ _ h1 h2 => le_trans h1 h2⟩

/-- Source lines 232-237, the Ranker/Selector pipeline applied to the
filtered collection: `.assign(distance_km=distances)` annotates each row
with its computed distance, `.query("distance_km <= @radius")` applies the
inclusive radius cutoff, `.sort_values("distance_km")` sorts ascending by
distance, `.head(max_res)` truncates.  The distance column is abstracted
as a function `dist` into any linearly ordered type, covering whatever
values the Distance Calculator produced for the reference coordinate; the
sort is modelled by a sorting function (insertion sort).  Sortedness,
membership and length of the output do not depend on which sorted
permutation the library sort returns. -/
def rankSelect {α : Type} [LinearOrder α] (fs : List Facility) (dist : Facility → α)
    (radius : α) (limit : ℕ) : List (Facility × α) :=
  (List.insertionSort distLE
    ((fs.map fun f => (f, dist f)).filter fun p => decide (p.2 ≤ radius))).take limit

theorem length_filter_pairs {α : Type} [LinearOrder α] (fs : List Facility)
    (dist : Facility → α) (radius : α) :
    ((fs.map fun f => (f, dist f)).filter fun p => decide (p.2 ≤ radius)).length =
      (fs.filter fun f => decide (dist f ≤ radius)).length := by
  induction fs with
  | nil => rfl
  | cons f fs ih =>
    simp only [List.map_cons, List.filter_cons]
    by_cases h : dist f ≤ radius <;> simp [h, ih]

/-- C1: Ranker/Selector output correctness: every entry's distance is at
most the radius (and the cutoff is inclusive: with a large enough limit,
any facility whose distance equals the radius appears in the output); the
distances are non-decreasing in output order; and the output length is at
most the minimum of the limit and the number of filtered facilities whose
distance is within the radius. -/
theorem ranker_spec {α : Type} [LinearOrder α] (fs : List Facility)
    (dist : Facility → α) (radius : α) (limit : ℕ) :
    (∀ p ∈ rankSelect fs dist radius limit, p.2 ≤ radius) ∧
    (rankSelect fs dist radius limit).Pairwise (fun p q => p.2 ≤ q.2) ∧
    (rankSelect fs dist radius limit).length ≤
      min limit ((fs.filter fun f => decide (dist f ≤ radius)).length) ∧
    (∀ f ∈ fs, dist f ≤ radius → (f, dist f) ∈ rankSelect fs dist radius fs.length) := by
  refine ⟨?_, ?_, ?_, ?_⟩
  · intro p hp
    have h1 : p ∈ List.insertionSort distLE
        ((fs.map fun f => (f, dist f)).filter fun p => decide (p.2 ≤ radius)) :=
      List.mem_of_mem_take hp
    have h2 := (List.perm_insertionSort distLE _).mem_iff.mp h1
    exact of_decide_eq_true (List.mem_filter.mp h2).2
  · exact (List.sorted_insertionSort distLE _).sublist (List.take_sublist _ _)
  · rw [rankSelect, List.length_take,
      (List.perm_insertionSort distLE _).length_eq, length_filter_pairs]
  · intro f hf hr
    have hmem : (f, dist f) ∈
        (fs.map fun f => (f, dist f)).filter fun p => decide (p.2 ≤ radius) :=
      List.mem_filter.mpr ⟨List.mem_map_of_mem _ hf, decide_eq_true hr⟩
    have hlen : (List.insertionSort distLE
        ((fs.map fun f => (f, dist f)).filter fun p => decide (p.2 ≤ radius))).length ≤
          fs.length := by
      rw [(List.perm_insertionSort distLE _).length_eq]
      calc ((fs.map fun f => (f, dist f)).filter fun p => decide (p.2 ≤ radius)).length
          ≤ (fs.map fun f => (f, dist f)).length := (List.filter_sublist _).length_le
        _ = fs.length := List.length_map _ _
    rw [rankSelect, List.take_of_length_le hlen]
    exact (List.perm_insertionSort distLE _).mem_iff.mpr hmem

theorem ranker_spec_witness :
    (∀ p ∈ rankSelect [facA, facB] (fun f => f.latitude) 46 1, p.2 ≤ 46) ∧
    (rankSelect [facA, facB] (fun f => f.latitude) 46 1).Pairwise (fun p q => p.2 ≤ q.2) ∧
    (rankSelect [facA, facB] (fun f => f.latitude) 46 1).length ≤
      min 1 (([facA, facB].filter fun f => decide (f.latitude ≤ 46)).length) ∧
    (∀ f ∈ [facA, facB], f.latitude ≤ 46 →
      (f, f.latitude) ∈ rankSelect [facA, facB] (fun f => f.latitude) 46 [facA, facB].length) :=
  ranker_spec [facA, facB] (fun f => f.latitude) 46 1

theorem rankSelect_eq_nil_iff {α : Type} [LinearOrder α] (fs : List Facility)
    (dist : Facility → α) (radius : α) (limit : ℕ) (hlim : 0 < limit) :
    rankSelect fs dist radius limit = [] ↔ ∀ f ∈ fs, ¬ dist f ≤ radius := by
  rw [rankSelect, List.take_eq_nil_iff]
  simp only [Nat.pos_iff_ne_zero.mp hlim, false_or]
  constructor
  · intro h f hf hr
    have hfil : ((fs.map fun f => (f, dist f)).filter fun p => decide (p.2 ≤ radius)) = [] := by
      have hl := congrArg List.length h
      rw [(List.perm_insertionSort distLE _).length_eq] at hl
      exact List.length_eq_zero.mp hl
    have hmem : (f, dist f) ∈
        ((fs.map fun f => (f, dist f)).filter fun p => decide (p.2 ≤ radius)) :=
      List.mem_filter.mpr ⟨List.mem_map_of_mem _ hf, decide_eq_true hr⟩
    rw [hfil] at hmem
    exact absurd hmem (List.not_mem_nil _)
  · intro h
    have hfil : ((fs.map fun f => (f, dist f)).filter fun p => decide (p.2 ≤ radius)) = [] := by
      refine List.filter_eq_nil_iff.mpr ?_
      rw [List.forall_mem_map]
      intro f hf
      simpa using h f hf
    rw [hfil]
    rfl

/-- The two reasons the search can report an empty outcome. -/
inductive NoMatchReason where
  | no_criteria_match
  | out_of_radius
deriving DecidableEq, Repr

/-- The typed outcome of one search invocation: either a non-empty ordered
result sequence, or a typed no-match signal.  Absence of matches is a
value of this type, never an exception. -/
inductive SearchResult (α : Type) where
  | found (res : List (Facility × α))
  | noMatch (reason : NoMatchReason)
deriving DecidableEq, Repr

/-- Source lines 226-246, the per-query orchestration: filter, then (the
empty-filter check of line 229), then annotate/cut/sort/truncate, then
(the empty-result check of line 239).  The info/success messages rendered
by the UI are modelled by the constructors of `SearchResult`. -/
def search {α : Type} [LinearOrder α] (fs : List Facility) (t ty na : String)
    (su : List String) (ac : String) (dist : Facility → α) (radius : α)
    (limit : ℕ) : SearchResult α :=
  let df := apply_selection_filters fs t ty na su ac
  if df.isEmpty then SearchResult.noMatch NoMatchReason.no_criteria_match
  else
    let res := rankSelect df dist radius limit
    if res.isEmpty then SearchResult.noMatch NoMatchReason.out_of_radius
    else SearchResult.found res

/-- C4: the search reports `no_criteria_match` exactly when the attribute
filters eliminate every facility, reports `out_of_radius` exactly when the
filtered set is non-empty but no filtered facility is within the radius,
and always returns one of the typed outcomes (no exception for absence of
matches). -/
theorem search_no_match_spec {α : Type} [LinearOrder α] (fs : List Facility)
    (t ty na : String) (su : List String) (ac : String) (dist : Facility → α)
    (radius : α) (limit : ℕ) (hlim : 0 < limit) :
    (search fs t ty na su ac dist radius limit =
        SearchResult.noMatch NoMatchReason.no_criteria_match ↔
      apply_selection_filters fs t ty na su ac = []) ∧
    (search fs t ty na su ac dist radius limit =
        SearchResult.noMatch NoMatchReason.out_of_radius ↔
      apply_selection_filters fs t ty na su ac ≠ [] ∧
        ∀ f ∈ apply_selection_filters fs t ty na su ac, ¬ dist f ≤ radius) ∧
    (search fs t ty na su ac dist radius limit =
        SearchResult.noMatch NoMatchReason.no_criteria_match ∨
      search fs t ty na su ac dist radius limit =
        SearchResult.noMatch NoMatchReason.out_of_radius ∨
      ∃ res, res ≠ [] ∧
        search fs t ty na su ac dist radius limit = SearchResult.found res) := by
  by_cases hdf : apply_selection_filters fs t ty na su ac = []
  · have hs : search fs t ty na su ac dist radius limit =
        SearchResult.noMatch NoMatchReason.no_criteria_match := by
      simp [search, hdf]
    refine ⟨by simp [hs, hdf], ?_, Or.inl hs⟩
    rw [hs]
    simp [hdf]
  · by_cases hres : rankSelect (apply_selection_filters fs t ty na su ac) dist radius limit = []
    · have hs : search fs t ty na su ac dist radius limit =
          SearchResult.noMatch NoMatchReason.out_of_radius := by
        simp [search, List.isEmpty_iff, hdf, hres]
      refine ⟨by rw [hs]; simp [hdf], ?_, Or.inr (Or.inl hs)⟩
      rw [hs]
      constructor
      · intro _
        exact ⟨hdf, (rankSelect_eq_nil_iff _ _ _ _ hlim).mp hres⟩
      · intro _
        rfl
    · have hs : search fs t ty na su ac dist radius limit =
          SearchResult.found
            (rankSelect (apply_selection_filters fs t ty na su ac) dist radius limit) := by
        simp [search, List.isEmpty_iff, hdf, hres]
      refine ⟨by rw [hs]; simp [hdf], ?_, Or.inr (Or.inr ⟨_, hres, hs⟩)⟩
      rw [hs]
      constructor
      · intro h
        simp at h
      · rintro ⟨h1, h2⟩
        exact absurd ((rankSelect_eq_nil_iff _ _ _ _ hlim).mpr h2) hres

theorem search_no_match_spec_witness :
    search [facA] "No preference" "No preference" "No preference" [] "No preference"
        (fun f => f.latitude) 3 1 = SearchResult.noMatch NoMatchReason.out_of_radius :=
  (search_no_match_spec [facA] "No preference" "No preference" "No preference" []
      "No preference" (fun f => f.latitude) 3 1 (by decide)).2.1.mpr
    ⟨by decide, by decide⟩

/-- Model of `np.arctan2 y x` for real arguments: the angle of the point
`(x, y)`, with `arctan2 0 0 = 0`. -/
noncomputable def arctan2 (y x : ℝ) : ℝ :=
  if 0 < x then Real.arctan (y / x)
  else if x < 0 then
    (if y < 0 then Real.arctan (y / x) - Real.pi else Real.arctan (y / x) + Real.pi)
  else
    (if 0 < y then Real.pi / 2 else if y < 0 then -(Real.pi / 2) else 0)

/-- Source lines 58-67, `haversine_vectorized` restricted to one candidate
point, over exact real arithmetic: degrees are converted to radians
(`x * π / 180`), and the haversine formula with Earth radius `6371.0` km
is applied. -/
noncomputable def haversine (lat lon lat2 lon2 : ℝ) : ℝ :=
  let R : ℝ := 6371.0
  let latr := lat * Real.pi / 180
  let lonr := lon * Real.pi / 180
  let lat2r := lat2 * Real.pi / 180
  let lon2r := lon2 * Real.pi / 180
  let dlat := lat2r - latr
  let dlon := lon2r - lonr
  let a := Real.sin (dlat / 2) ^ 2 + Real.cos latr * Real.cos lat2r * Real.sin (dlon / 2) ^ 2
  let c := 2 * arctan2 (Real.sqrt a) (Real.sqrt (1 - a))
  R * c

/-- C8: for every valid coordinate, the distance from a point to itself is
exactly 0 km (hence within the 1e-9 km tolerance) and is a well-defined
real number: with reference = candidate the haversine intermediate `a` is
exactly 0, so both square roots have arguments in range and no NaN can
arise. -/
theorem haversine_self_zero (lat lon : ℝ) (_hlat1 : -90 ≤ lat) (_hlat2 : lat ≤ 90)
    (_hlon1 : -180 ≤ lon) (_hlon2 : lon ≤ 180) :
    haversine lat lon lat lon = 0 ∧ |haversine lat lon lat lon| ≤ 1e-9 := by
  have h0 : haversine lat lon lat lon = 0 := by
    rw [haversine]
    simp only [sub_self, zero_div, Real.sin_zero, ne_eq, OfNat.ofNat_ne_zero,
      not_false_eq_true, zero_pow, mul_zero, add_zero, zero_add, Real.sqrt_zero,
      sub_zero, Real.sqrt_one, arctan2]
    rw [if_pos zero_lt_one]
    simp [Real.arctan_zero]
  refine ⟨h0, ?_⟩
  rw [h0]
  norm_num

theorem haversine_self_zero_witness :
    haversine 48 2 48 2 = 0 ∧ |haversine 48 2 48 2| ≤ 1e-9 :=
  haversine_self_zero 48 2 (by norm_num) (by norm_num) (by norm_num) (by norm_num)
